import Mathlib

/-!
Shallow embedding of the users service of the `stdservices` repository
(`users/users.go`): the data model, token issuance and verification,
credential checking, account creation and the email-verification flow.

Modelling conventions:
* Time instants are `Int` values counting nanoseconds since the Unix epoch
  (the resolution of Go `time.Time`).  Each textual call the source makes to
  `time.Now()` reads the next value of an explicit clock stream
  `clock : Nat → Int`; two distinct calls may observe distinct instants.
* External collaborators (the repository, the mailer, bcrypt, the jwt
  library) are modelled as explicit function parameters or small executable
  stand-ins, matching the contracts stated in the specification.
* Calls the service makes to the repository and to the mailer are recorded
  in an `Effect` log returned alongside the result, so that statements about
  what was persisted or attempted can be made.
* Fallible Go functions returning `(T, error)` become `Except Err T`; each
  distinct error value or `fmt.Errorf` wrap site of the source becomes a
  distinct `Err` constructor, so that error categories distinguishable by a
  Go caller (`errors.Is`) stay distinguishable here.
-/

set_option autoImplicit false

deriving instance DecidableEq for Except

namespace Stdservices

/-- Nanoseconds per second: Go `time.Time` instants have nanosecond
resolution while JWT `exp`/`iat` claims are whole Unix seconds. -/
def nsPerSecond : Int := 1000000000

/-- Go `time.Time.Unix()`: whole seconds since epoch of an instant given in
nanoseconds (Go floors, via the seconds field of `time.Time`). -/
def unixSeconds (ns : Int) : Int := Int.fdiv ns nsPerSecond

/-- Go `time.Unix(sec, 0)`: the instant, in nanoseconds, at a whole second. -/
def timeUnixNS (sec : Int) : Int := sec * nsPerSecond

/-- The character set of `randString` (`users.go`):
`"abcdefghijklmnopqrstuvwxyz0123456789"`, 36 characters. -/
def chars : String := "abcdefghijklmnopqrstuvwxyz0123456789"

/-- `randString` (`users.go`): builds a string of `length` characters, each
`chars[seededRand.Intn(len(chars))]`.  The stream `draw` supplies the random
draws, one per position, reduced `% 36` exactly as `Intn(36)` bounds them. -/
def randString (length : Nat) (draw : Nat → Nat) : String :=
  ⟨(List.range length).map fun i => chars.toList.getD (draw i % 36) 'a'⟩

/-- Modelled from the spec: the role constants of the users model file (not
under `src/`); the spec fixes the role enum to exactly user and admin, with
string representations used by the storage layer. -/
def RoleUser : String := "user"

/-- Modelled from the spec: the admin role constant, see `RoleUser`. -/
def RoleAdmin : String := "admin"

/-- Modelled from the spec: `role.validate` of the users model file (not
under `src/`); spec 4.3 requires role membership in the two-element role set,
failing with InvalidRole otherwise. -/
def roleValidate (r : String) : Bool := r == RoleUser || r == RoleAdmin

/-- Modelled from the spec: `validate.ID` of `pkg/validate` (not under
`src/`).  The spec calls ids opaque UUID strings and gives no concrete
grammar, so the model rejects only the empty string; theorems use the
validator as a hypothesis so its exact grammar is immaterial. -/
def validateID (id : String) : Bool := id != ""

/-- Modelled from the spec: `validate.Email` of `pkg/validate` (not under
`src/`); malformed emails are rejected, modelled as requiring an `@`
(written over the character list so it evaluates in the kernel). -/
def validateEmail (e : String) : Bool := e.toList.any (· == '@')

/-- Modelled from the spec: `validate.Password` of `pkg/validate` (not under
`src/`); the spec rejects passwords too weak or too long, modelled as a
length window (72 bytes is the bcrypt input limit). -/
def validatePassword (p : String) : Bool := decide (8 ≤ p.length ∧ p.length ≤ 72)

/-- Modelled from the spec: the `CreateUserInput` structure of the users
model file (not under `src/`), carrying the fields `Create` reads. -/
structure CreateUserInput where
  fullname : String
  username : String
  birthdate : String
  email : String
  password : String
  deriving Repr, DecidableEq

/-- Modelled from the spec: `CreateUserInput.validate` (not under `src/`);
spec 4.5 validates every field before any persistence or crypto operation. -/
def CreateUserInput.validate (input : CreateUserInput) : Bool :=
  input.fullname != "" && input.username != "" && input.birthdate != "" &&
    validateEmail input.email && validatePassword input.password

/-- Executable stand-in for the external bcrypt library:
`GenerateFromPassword` tags the password (salting/cost are outside the
model); `CompareHashAndPassword` succeeds exactly when the digest was
produced from the same password — the functional contract the service
relies on.  With the default cost, hashing cannot fail. -/
def bcryptHash (password : String) : String := "bcrypt$" ++ password

/-- `bcrypt.CompareHashAndPassword` as a Boolean: see `bcryptHash`. -/
def bcryptCompare (hash password : String) : Bool := hash == bcryptHash password

/-- Modelled from the spec: the storage record `repository.User` (the
repository package is not under `src/`); fields as listed in spec section 3
and as written by `Create` in `users.go`.  Timestamps are instants in ns. -/
structure RepoUser where
  id : String
  fullname : String
  username : String
  birthdate : String
  email : String
  emailVerified : Bool
  passwordHash : String
  role : String
  createdAt : Int
  updatedAt : Int
  deriving Repr, DecidableEq

/-- Modelled from the spec: the storage record `repository.EmailVerification`
(the repository package is not under `src/`); fields as written by
`SendEmailVerification` in `users.go`. -/
structure EmailVerification where
  code : String
  userID : String
  createdAt : Int
  expiresAt : Int
  deriving Repr, DecidableEq

/-- Errors the repository `Insert` can report: the sentinel
`repository.ErrDuplicateRecord` that `Create` tests with `errors.Is`, or any
other storage failure carrying its message. -/
inductive RepoErr where
  | duplicateRecord
  | other (msg : String)
  deriving Repr, DecidableEq

/-- The repository collaborator (spec section 6): response functions for each
of the calls the service makes.  A `.ok Option.none` from the selects means
"no record" (Go `nil, nil`), the cue for a NotFound domain error. -/
structure Repo where
  insert : RepoUser → Except RepoErr RepoUser
  selectByID : String → Except String (Option RepoUser)
  selectByEmail : String → Except String (Option RepoUser)
  deleteByID : String → Except String Unit
  insertEmailVerification : EmailVerification → Except String Unit

/-- The mailer collaborator: `Send(from, to, body)`, failing with a delivery
error message. -/
def Emailer : Type := String → String → String → Except String Unit

/-- Domain error values of the users service.  Sentinels defined in the (not
included) errors file of the package are modelled from the spec's error
taxonomy (section 7); each `fmt.Errorf` wrap site of `users.go` becomes its
own constructor carrying the wrapped message, since a Go caller can
distinguish a wrapped error from every sentinel.  `tokenInvalid` is the
`errTokenInvalid` sentinel of `users.go` line 237, reachable only if the
parsed claims fail a type assertion (which the modelled library parse always
satisfies). -/
inductive Err where
  | validation (field : String)
  | alreadyExists
  | storage (msg : String)
  | parseUserModel (msg : String)
  | notFound
  | passwordInvalid
  | jwtGeneration (inner : Err)
  | tokenEmpty
  | tokenParse (msg : String)
  | tokenInvalid
  | missingUserID
  | missingRole
  | missingExp
  | tokenExpired
  | roleInvalid
  | delivery (msg : String)
  | panicNilEmailer
  deriving Repr, DecidableEq

/-- Calls the service makes to its collaborators, recorded in order. -/
inductive Effect where
  | insertUser (u : RepoUser)
  | insertEmailVerification (r : EmailVerification)
  | sendEmail (fromName : String) (toAddr : String) (body : String)
  deriving Repr, DecidableEq

/-- JWT signing algorithms as they matter to `VerifyToken`'s keyfunc: the
HMAC family (`*jwt.SigningMethodHMAC`), a representative asymmetric
algorithm, and the "none" algorithm. -/
inductive Alg where
  | HS256
  | HS384
  | HS512
  | RS256
  | algNone
  deriving Repr, DecidableEq

/-- Whether the method is `*jwt.SigningMethodHMAC` (the keyfunc's type
assertion). -/
def Alg.isHMAC : Alg → Bool
  | .HS256 => true
  | .HS384 => true
  | .HS512 => true
  | _ => false

/-- `jwtSigningMethod = jwt.SigningMethodHS512` (`users.go` line 22). -/
def jwtSigningMethod : Alg := Alg.HS512

/-- The claims payload of a token as `VerifyToken` extracts it from
`jwt.MapClaims`: each field is present with the right type or not
(`Option.none` covers both an absent claim and a wrong-typed one, which take
the same error path in the source). -/
structure JwtClaims where
  userID : Option String
  role : Option String
  iat : Option Int
  exp : Option Int
  deriving Repr, DecidableEq

/-- A structurally well-formed signed token: the declared algorithm, the
claims payload, and the key the signature was produced with.  The signature
of a MAC-signed token verifies under key `k` exactly when `key = k`; this is
the defining property of the HMAC the external library computes. -/
structure Token where
  alg : Alg
  claims : JwtClaims
  key : String
  deriving Repr, DecidableEq

/-- The token strings `VerifyToken` can receive: the empty string, a string
that is not a structurally valid JWT, or a well-formed signed token. -/
inductive TokenInput where
  | empty
  | malformed (s : String)
  | signed (t : Token)
  deriving Repr, DecidableEq

/-- The external `jwt.Parse` with the keyfunc of `VerifyToken`
(`users.go` lines 220-230): reject a non-HMAC method ("unexpected signing
method"), reject an HMAC method other than `jwtSigningMethod` ("invalid
token signing method"), then verify the signature with the returned key and
hand back the claims.  The library parse is modelled as structural
signature verification; `users.go` performs its own claim extraction and
expiry comparison after parsing, and those checks are what the theorems
below reason about. -/
def jwtParse (signingKey : String) (t : Token) : Except String JwtClaims :=
  if !t.alg.isHMAC then .error "unexpected signing method"
  else if t.alg ≠ jwtSigningMethod then .error "invalid token signing method"
  else if t.key ≠ signingKey then .error "signature is invalid"
  else .ok t.claims

/-- `VerifyTokenResponse`: id and username from storage, role from the token
claim. -/
structure VerifyTokenResponse where
  id : String
  username : String
  role : String
  deriving Repr, DecidableEq

/-- The domain `User` record returned by `Create` (model file not under
`src/`; fields per spec section 3, role kept as its string representation). -/
structure User where
  id : String
  fullname : String
  username : String
  birthdate : String
  email : String
  emailVerified : Bool
  role : String
  createdAt : Int
  updatedAt : Int
  deriving Repr, DecidableEq

/-- `newUserFromRepository` (`users.go` lines 326-348): maps the storage
record to the domain model, rejecting a role outside the enum. -/
def newUserFromRepository (u : RepoUser) : Except String User :=
  if u.role = "user" ∨ u.role = "admin" then
    .ok { id := u.id, fullname := u.fullname, username := u.username,
          birthdate := u.birthdate, email := u.email,
          emailVerified := u.emailVerified, role := u.role,
          createdAt := u.createdAt, updatedAt := u.updatedAt }
  else .error ("invalid role: " ++ u.role)

/-- The service state (`DefaultService`): immutable configuration plus the
collaborators.  The logger is observability only and is omitted; an absent
emailer is Go's nil field. -/
structure DefaultService where
  jwtSigningKey : String
  emailVerificationSenderName : String
  emailVerificationSenderAddr : String
  emailVerificationEndpoint : String
  emailer : Option Emailer
  repo : Repo

/-- `generateJWT` (`users.go` lines 298-324): validate the id and the role,
then sign an HS512 token over the `jwtClaim` value with the service key;
`now` is the single `time.Now().UTC()` instant the source reads.
The serialized claims carry only `iat = now.Unix()` and
`exp = now.Add(24h).Unix()`: the `jwtClaim` struct's `id` and `role` fields
(`users.go` lines 60-65) are unexported and have no json tags, so Go's
`json.Marshal` — which the jwt library uses to encode the payload — omits
them, and no `user_id` or `role` claim appears in the issued token. -/
def generateJWT (s : DefaultService) (now : Int) (userID : String)
    (r : String) : Except Err Token :=
  if !validateID userID then .error (.validation "id")
  else if !roleValidate r then .error .roleInvalid
  else .ok
    { alg := jwtSigningMethod
      key := s.jwtSigningKey
      claims :=
        { userID := Option.none
          role := Option.none
          iat := some (unixSeconds now)
          exp := some (unixSeconds (now + 86400 * nsPerSecond)) } }

/-- `VerifyToken` (`users.go` lines 215-273): reject the empty string, parse
with the keyfunc, extract `user_id`, `role` and `exp` from the claims map,
reject when `time.Unix(exp, 0).Before(now)`, re-fetch the user by id and
fail NotFound when absent; on success answer with the stored id and
username and the role claimed by the token.  `now` is the instant
`time.Now()` reads in the expiry comparison. -/
def verifyToken (s : DefaultService) (now : Int) (tok : TokenInput) :
    Except Err VerifyTokenResponse :=
  match tok with
  | .empty => .error .tokenEmpty
  | .malformed _ =>
      .error (.tokenParse "could not parse token: token contains an invalid number of segments")
  | .signed t =>
    match jwtParse s.jwtSigningKey t with
    | .error m => .error (.tokenParse ("could not parse token: " ++ m))
    | .ok claims =>
      match claims.userID with
      | Option.none => .error .missingUserID
      | some userID =>
        match claims.role with
        | Option.none => .error .missingRole
        | some r =>
          match claims.exp with
          | Option.none => .error .missingExp
          | some exp =>
            if timeUnixNS exp < now then .error .tokenExpired
            else
              match s.repo.selectByID userID with
              | .error m => .error (.storage ("could not select user by id: " ++ m))
              | .ok Option.none => .error .notFound
              | .ok (some u) =>
                  .ok { id := u.id, username := u.username, role := r }

/-- `GenerateToken` (`users.go` lines 181-212): validate email and password,
select by email (absent record fails with the `errNotFound` sentinel),
compare the stored hash against the password (mismatch fails with the
`errPasswordInvalid` sentinel), then issue a token for the stored id and
role. -/
def generateToken (s : DefaultService) (now : Int) (email password : String) :
    Except Err Token :=
  if !validateEmail email then .error (.validation "email")
  else if !validatePassword password then .error (.validation "password")
  else
    match s.repo.selectByEmail email with
    | .error m => .error (.storage ("could not select user by email: " ++ m))
    | .ok Option.none => .error .notFound
    | .ok (some storageUser) =>
      if !bcryptCompare storageUser.passwordHash password then .error .passwordInvalid
      else
        match generateJWT s now storageUser.id storageUser.role with
        | .error e => .error (.jwtGeneration e)
        | .ok tok => .ok tok

/-- Go `path.Join` of the verification endpoint and the code. -/
def pathJoin (a b : String) : String := a ++ "/" ++ b

/-- The plain-text message `SendEmailVerification` formats
(`users.go` lines 289-290). -/
def verificationBody (senderAddr toAddr senderName link : String) : String :=
  "From: " ++ senderAddr ++ "\r\nTo: " ++ toAddr ++ "\r\nSubject: " ++ senderName ++
    " Email Verification\r\n\r\nPlease click the following link to verify your email address: " ++
    link ++ "\r\n"

/-- The `EmailVerification` record `SendEmailVerification` builds
(`users.go` lines 278-283): `CreatedAt` and `ExpiresAt` come from two
separate `time.Now().UTC()` calls, read here as `clock 0` and `clock 1`. -/
def verificationRecord (clock : Nat → Int) (draw : Nat → Nat)
    (userID : String) : EmailVerification :=
  { code := randString 6 draw
    userID := userID
    createdAt := clock 0
    expiresAt := clock 1 + 86400 * nsPerSecond }

/-- `SendEmailVerification` (`users.go` lines 275-296): generate the code,
persist the verification record, format the message and hand it to the
mailer.  A nil emailer makes the Go method panic at the `Send` call, after
persisting; the panic is modelled as the distinguished error
`panicNilEmailer`.  Returns the result together with the log of collaborator
calls made, in order. -/
def sendEmailVerification (s : DefaultService) (clock : Nat → Int)
    (draw : Nat → Nat) (userID username toAddr : String) :
    Except Err Unit × List Effect :=
  let rcd := verificationRecord clock draw userID
  match s.repo.insertEmailVerification rcd with
  | .error m =>
      (.error (.storage ("could not insert email verification: " ++ m)),
       [.insertEmailVerification rcd])
  | .ok _ =>
    let body := verificationBody s.emailVerificationSenderAddr toAddr
      s.emailVerificationSenderName (pathJoin s.emailVerificationEndpoint rcd.code)
    match s.emailer with
    | Option.none => (.error .panicNilEmailer, [.insertEmailVerification rcd])
    | some em =>
      match em s.emailVerificationSenderName toAddr body with
      | .error m =>
          (.error (.delivery ("could not send email verification: " ++ m)),
           [.insertEmailVerification rcd,
            .sendEmail s.emailVerificationSenderName toAddr body])
      | .ok _ =>
          (.ok (),
           [.insertEmailVerification rcd,
            .sendEmail s.emailVerificationSenderName toAddr body])

/-- The storage record `Create` hands to `repo.Insert`
(`users.go` lines 113-124): fresh uuid, fields from the input, hashed
password, role forced to `"user"`, `EmailVerified` false, `CreatedAt` and
`UpdatedAt` from two `time.Now()` calls (`clock 0`, `clock 1`). -/
def insertCandidate (clock : Nat → Int) (newID : String)
    (input : CreateUserInput) : RepoUser :=
  { id := newID
    fullname := input.fullname
    username := input.username
    birthdate := input.birthdate
    email := input.email
    emailVerified := false
    passwordHash := bcryptHash input.password
    role := RoleUser
    createdAt := clock 0
    updatedAt := clock 1 }

/-- `Create` (`users.go` lines 103-145): validate the input, hash the
password, insert the candidate record (`errors.Is(err, ErrDuplicateRecord)`
maps to `errAlreadyExists`, any other insert failure to a wrapped storage
error), map the inserted record to the domain model, and — only when an
emailer is configured — attempt the verification email, whose failure is
logged and discarded.  `newID` models `uuid.NewString()`; `clock` and `draw`
as in `sendEmailVerification`, the nested send reading the clock from index
2 on. -/
def create (s : DefaultService) (clock : Nat → Int) (newID : String)
    (draw : Nat → Nat) (input : CreateUserInput) :
    Except Err User × List Effect :=
  if !input.validate then (.error (.validation "create user input"), [])
  else
    let newUser := insertCandidate clock newID input
    match s.repo.insert newUser with
    | .error .duplicateRecord => (.error .alreadyExists, [.insertUser newUser])
    | .error (.other m) =>
        (.error (.storage ("could not insert user: " ++ m)), [.insertUser newUser])
    | .ok insertedUser =>
      match newUserFromRepository insertedUser with
      | .error m => (.error (.parseUserModel m), [.insertUser newUser])
      | .ok user =>
        match s.emailer with
        | Option.none => (.ok user, [.insertUser newUser])
        | some _ =>
          let sent := sendEmailVerification s (fun i => clock (2 + i)) draw
            user.id user.username user.email
          (.ok user, .insertUser newUser :: sent.2)

/-- A well-behaved repository over an in-memory list of users, used to
instantiate the abstract collaborator in concrete examples: email is the
unique key for inserts, the selects look records up by field. -/
def listRepo (users : List RepoUser) : Repo :=
  { insert := fun u =>
      if users.any fun v => v.email == u.email then .error .duplicateRecord
      else .ok u
    selectByID := fun id => .ok (users.find? fun v => v.id == id)
    selectByEmail := fun e => .ok (users.find? fun v => v.email == e)
    deleteByID := fun _ => .ok ()
    insertEmailVerification := fun _ => .ok () }

/-! ### Concrete fixtures for witnesses and counterexamples -/

/-- A stored user, hashed from the spec's example password. -/
def juser : RepoUser :=
  { id := "11111111-1111-1111-1111-111111111111"
    fullname := "Jane Doe"
    username := "janedoe"
    birthdate := "1990-01-01"
    email := "jane@example.com"
    emailVerified := false
    passwordHash := bcryptHash "Str0ngPass!"
    role := "user"
    createdAt := 0
    updatedAt := 0 }

/-- A mailer that accepts every message. -/
def okEmailer : Emailer := fun _ _ _ => .ok ()

/-- A mailer that rejects every message. -/
def failEmailer : Emailer := fun _ _ _ => .error "smtp unavailable"

/-- Service with one stored user and no emailer configured. -/
def baseService : DefaultService :=
  { jwtSigningKey := "secret-key"
    emailVerificationSenderName := "Stdservices"
    emailVerificationSenderAddr := "noreply@example.com"
    emailVerificationEndpoint := "https://example.com/verify"
    emailer := Option.none
    repo := listRepo [juser] }

/-- Service with an empty store and no emailer. -/
def emptyService : DefaultService :=
  { baseService with repo := listRepo [] }

/-- Service with an empty store and a failing mailer. -/
def failMailService : DefaultService :=
  { baseService with repo := listRepo [], emailer := some failEmailer }

/-- Service with one stored user and an accepting mailer. -/
def mailService : DefaultService :=
  { baseService with emailer := some okEmailer }

/-- The spec's example creation input. -/
def janeInput : CreateUserInput :=
  { fullname := "Jane Doe"
    username := "janedoe"
    birthdate := "1990-01-01"
    email := "jane@example.com"
    password := "Str0ngPass!" }

/-- A clock frozen at the epoch. -/
def wClock : Nat → Int := fun _ => 0

/-- A drift clock advancing one nanosecond per reading. -/
def driftClock : Nat → Int := fun i => Int.ofNat i

/-- A constant random-draw stream. -/
def wDraw : Nat → Nat := fun _ => 0

/-- A well-formed HS512 token under the service key carrying the map claims
`VerifyToken` reads (`user_id`, `role`, `iat`, `exp`) — the payload the spec
intends issuance to produce, as a holder of the signing key could mint it.
The service's own `generateJWT` does not produce these claims: see
`issuedToken` below. -/
def hs512Token : Token :=
  { alg := Alg.HS512
    key := "secret-key"
    claims :=
      { userID := some juser.id, role := some "user"
        iat := some 0, exp := some 86400 } }

/-- Same payload as `hs512Token` but claiming the admin role. -/
def adminClaimToken : Token :=
  { hs512Token with
      claims := { hs512Token.claims with role := some "admin" } }

/-- Same payload as `hs512Token` but declaring RS256. -/
def rs256Token : Token := { hs512Token with alg := Alg.RS256 }

/-- Same payload as `hs512Token` but declaring the "none" algorithm. -/
def noneToken : Token := { hs512Token with alg := Alg.algNone, key := "" }

/-- The token `generateJWT baseService 0 juser.id "user"` actually issues:
only `iat` and `exp` survive serialization. -/
def issuedToken : Token :=
  { alg := Alg.HS512
    key := "secret-key"
    claims :=
      { userID := Option.none, role := Option.none
        iat := some 0, exp := some 86400 } }

/-! ### C1: issue/verify round-trip -/

/-- C1 (code bug): the spec's Issue into Verify round-trip never succeeds.
The token `generateJWT` issues carries no `user_id` claim — `jwtClaim`'s
`id` and `role` fields are unexported and untagged, so serialization drops
them — and therefore `VerifyToken` on any self-issued token fails with the
"could not find user id in token" error, whatever the verification time,
the repository state, or the issuance arguments; it never returns the
userID and role. -/
theorem issue_verify_roundtrip_bug (s : DefaultService) (now now2 : Int)
    (userID r : String) (tok : Token)
    (hgen : generateJWT s now userID r = .ok tok) :
    verifyToken s now2 (.signed tok) = .error .missingUserID := by
  simp only [generateJWT] at hgen
  split at hgen
  · cases hgen
  · split at hgen
    · cases hgen
    · cases hgen
      simp [verifyToken, jwtParse, jwtSigningMethod, Alg.isHMAC]

/-- Witness for the C1 bug at the concrete fixture: the freshly issued
token, verified immediately and with the user still stored, is rejected. -/
theorem issue_verify_roundtrip_bug_witness :
    verifyToken baseService 0 (.signed issuedToken) =
      .error .missingUserID :=
  issue_verify_roundtrip_bug baseService 0 0 juser.id "user" issuedToken
    (by decide)

/-! ### C2: expiry boundary -/

/-- C2 counterexample: the claim says a token verified at its exact expiry
instant fails with TokenExpired; the source compares with `Before`, which is
strict, so at `now = timeUnixNS exp` the token is accepted. -/
theorem verify_at_exact_expiry_accepted :
    verifyToken baseService (timeUnixNS 86400) (.signed hs512Token) =
      .ok { id := juser.id, username := "janedoe", role := "user" } ∧
    verifyToken baseService (timeUnixNS 86400) (.signed hs512Token) ≠
      .error .tokenExpired := by
  exact ⟨by decide, by decide⟩

/-- C2 (amended): for a well-formed signed token, VerifyToken fails with
TokenExpired exactly when the expiry instant is strictly before the
verification time; at the exact expiry instant or later the token does not
fail with TokenExpired (expiry is exclusive of the current instant). -/
theorem verify_expiry_strict (s : DefaultService) (now : Int) (t : Token)
    (userID r : String) (iat : Option Int) (exp : Int)
    (halg : t.alg = Alg.HS512) (hkey : t.key = s.jwtSigningKey)
    (hclaims : t.claims =
      { userID := some userID, role := some r, iat := iat, exp := some exp }) :
    (timeUnixNS exp < now →
      verifyToken s now (.signed t) = .error .tokenExpired) ∧
    (¬ timeUnixNS exp < now →
      verifyToken s now (.signed t) ≠ .error .tokenExpired) := by
  constructor
  · intro hlt
    simp [verifyToken, jwtParse, jwtSigningMethod, Alg.isHMAC, halg, hkey,
      hclaims, hlt]
  · intro hge
    rcases h : s.repo.selectByID userID with m | mu
    · simp [verifyToken, jwtParse, jwtSigningMethod, Alg.isHMAC, halg, hkey,
        hclaims, hge, h]
    · rcases mu with _ | u <;>
        simp [verifyToken, jwtParse, jwtSigningMethod, Alg.isHMAC, halg, hkey,
          hclaims, hge, h]

/-- Witness for the amended C2: one second past expiry fails TokenExpired. -/
theorem verify_expiry_strict_witness :
    verifyToken baseService (timeUnixNS 86401) (.signed hs512Token) =
      .error .tokenExpired :=
  (verify_expiry_strict baseService (timeUnixNS 86401) hs512Token juser.id
    "user" (some 0) 86400 rfl rfl rfl).1 (by decide)

/-! ### C3: credential failure categories -/

/-- C3 counterexample: the claim says a wrong password and an unknown email
fail with the same error category; the source returns the
`errPasswordInvalid` sentinel for the former and the `errNotFound` sentinel
for the latter, and the two are distinct. -/
theorem wrong_password_vs_unknown_email_distinct :
    generateToken baseService 0 "jane@example.com" "WrongPass99" =
      .error .passwordInvalid ∧
    generateToken baseService 0 "ghost@example.com" "WrongPass99" =
      .error .notFound ∧
    Err.passwordInvalid ≠ Err.notFound := by
  exact ⟨by decide, by decide, by decide⟩

/-- C3 (amended): for every stored user and non-matching password,
GenerateToken fails with the InvalidCredentials sentinel, while an email
belonging to no user fails with the distinct NotFound sentinel: the two
failure outcomes are distinguishable to the caller. -/
theorem generateToken_error_categories (s : DefaultService) (now : Int)
    (email email2 password : String) (u : RepoUser)
    (hve : validateEmail email = true)
    (hvp : validatePassword password = true)
    (hsel : s.repo.selectByEmail email = .ok (some u))
    (hmis : bcryptCompare u.passwordHash password = false)
    (hve2 : validateEmail email2 = true)
    (hsel2 : s.repo.selectByEmail email2 = .ok Option.none) :
    generateToken s now email password = .error .passwordInvalid ∧
    generateToken s now email2 password = .error .notFound ∧
    Err.passwordInvalid ≠ Err.notFound := by
  refine ⟨?_, ?_, by decide⟩
  · simp [generateToken, hve, hvp, hsel, hmis]
  · simp [generateToken, hve2, hvp, hsel2]

/-- Witness for the amended C3 at the concrete fixture. -/
theorem generateToken_error_categories_witness :
    generateToken baseService 0 "jane@example.com" "WrongPass11" =
      .error .passwordInvalid ∧
    generateToken baseService 0 "nobody@example.com" "WrongPass11" =
      .error .notFound ∧
    Err.passwordInvalid ≠ Err.notFound :=
  generateToken_error_categories baseService 0 "jane@example.com"
    "nobody@example.com" "WrongPass11" juser (by decide) (by decide)
    (by decide) (by decide) (by decide) (by decide)

/-! ### C4: creation forces role and unverified email -/

/-- The effect log of `sendEmailVerification` never contains a user insert:
its only repository effects are the verification-record insert and the mail
hand-off. -/
theorem sendEmailVerification_no_insertUser (s : DefaultService)
    (clock : Nat → Int) (draw : Nat → Nat) (userID username toAddr : String)
    (r : RepoUser) :
    Effect.insertUser r ∉
      (sendEmailVerification s clock draw userID username toAddr).2 := by
  simp only [sendEmailVerification]
  cases h : s.repo.insertEmailVerification (verificationRecord clock draw userID) with
  | error m => simp [h]
  | ok u =>
    cases hem : s.emailer with
    | none => simp [h, hem]
    | some em =>
      cases hsend : em s.emailVerificationSenderName toAddr
          (verificationBody s.emailVerificationSenderAddr toAddr
            s.emailVerificationSenderName
            (pathJoin s.emailVerificationEndpoint
              (verificationRecord clock draw userID).code)) with
      | error m => simp [h, hem, hsend]
      | ok v => simp [h, hem, hsend]

/-- C4: for every creation input that passes validation, every record Create
hands to the repository insert has role `"user"` and `emailVerified = false`,
and — provided the repository returns the inserted record's role and
verified flag unchanged, its contract — the user Create returns also has
role `"user"` and `emailVerified = false`, regardless of the input's
content. -/
theorem create_forces_user_role (s : DefaultService) (clock : Nat → Int)
    (newID : String) (draw : Nat → Nat) (input : CreateUserInput)
    (hv : input.validate = true)
    (hEcho : ∀ u u', s.repo.insert u = .ok u' →
      u'.role = u.role ∧ u'.emailVerified = u.emailVerified) :
    (∀ r, Effect.insertUser r ∈ (create s clock newID draw input).2 →
      r.role = RoleUser ∧ r.emailVerified = false) ∧
    (∀ usr, (create s clock newID draw input).1 = .ok usr →
      usr.role = RoleUser ∧ usr.emailVerified = false) := by
  have hcand : (insertCandidate clock newID input).role = RoleUser ∧
      (insertCandidate clock newID input).emailVerified = false := ⟨rfl, rfl⟩
  constructor
  · intro r hr
    simp only [create, hv, Bool.not_true, Bool.false_eq_true, if_false] at hr
    cases hins : s.repo.insert (insertCandidate clock newID input) with
    | error e =>
      cases e <;> simp only [hins] at hr <;>
        · simp at hr
          subst hr
          exact hcand
    | ok inserted =>
      simp only [hins] at hr
      cases hparse : newUserFromRepository inserted with
      | error m =>
        simp only [hparse] at hr
        simp at hr
        subst hr
        exact hcand
      | ok user =>
        simp only [hparse] at hr
        cases hem : s.emailer with
        | none =>
          simp only [hem] at hr
          simp at hr
          subst hr
          exact hcand
        | some em =>
          simp only [hem, List.mem_cons] at hr
          rcases hr with hr | hr
          · injection hr with hr
            subst hr
            exact hcand
          · exact absurd hr
              (sendEmailVerification_no_insertUser s (fun i => clock (2 + i))
                draw user.id user.username user.email r)
  · intro usr husr
    simp only [create, hv, Bool.not_true, Bool.false_eq_true, if_false] at husr
    cases hins : s.repo.insert (insertCandidate clock newID input) with
    | error e => cases e <;> simp [hins] at husr
    | ok inserted =>
      simp only [hins] at husr
      have hflags := hEcho _ _ hins
      cases hparse : newUserFromRepository inserted with
      | error m => simp [hparse] at husr
      | ok user =>
        have huser : user.role = inserted.role ∧
            user.emailVerified = inserted.emailVerified := by
          simp only [newUserFromRepository] at hparse
          split at hparse
          · cases hparse
            exact ⟨rfl, rfl⟩
          · cases hparse
        simp only [hparse] at husr
        have husr' : user = usr := by
          cases hem : s.emailer <;> simp [hem] at husr <;> exact husr
        subst husr'
        rw [huser.1, huser.2, hflags.1, hflags.2]
        exact hcand

/-- Witness for C4: a creation against an empty well-behaved store. -/
theorem create_forces_user_role_witness :
    (∀ r, Effect.insertUser r ∈ (create emptyService wClock "wid" wDraw janeInput).2 →
      r.role = RoleUser ∧ r.emailVerified = false) ∧
    (∀ usr, (create emptyService wClock "wid" wDraw janeInput).1 = .ok usr →
      usr.role = RoleUser ∧ usr.emailVerified = false) :=
  create_forces_user_role emptyService wClock "wid" wDraw janeInput
    (by decide)
    (by
      intro u u' h
      simp only [emptyService, listRepo, List.any_nil, Bool.false_eq_true,
        if_false, Except.ok.injEq] at h
      subst h
      exact ⟨rfl, rfl⟩)

/-! ### C5: algorithm confusion -/

/-- C5 counterexample: the claim says a token declaring a different or
"none" algorithm fails with the TokenInvalid error; the source's keyfunc
rejects it inside `jwt.Parse`, so VerifyToken returns the wrapped
parse error, which is distinct from the `errTokenInvalid` sentinel. -/
theorem wrong_alg_not_tokenInvalid :
    verifyToken baseService 0 (.signed rs256Token) =
      .error (.tokenParse "could not parse token: unexpected signing method") ∧
    verifyToken baseService 0 (.signed noneToken) =
      .error (.tokenParse "could not parse token: unexpected signing method") ∧
    ∀ m, Err.tokenParse m ≠ Err.tokenInvalid :=
  ⟨by decide, by decide, fun _ h => Err.noConfusion h⟩

/-- C5 (amended): for every token whose header declares an algorithm other
than HS512 (including "none"), VerifyToken fails with the wrapped
token-parse error produced by the keyfunc's rejection — an error distinct
from the TokenInvalid sentinel — even when the payload is structurally
well-formed. -/
theorem verify_wrong_alg_rejected (s : DefaultService) (now : Int) (t : Token)
    (halg : t.alg ≠ Alg.HS512) :
    ∃ m, verifyToken s now (.signed t) = .error (.tokenParse m) ∧
      Err.tokenParse m ≠ Err.tokenInvalid := by
  obtain ⟨alg, claims, key⟩ := t
  cases alg
  case HS512 => exact absurd rfl halg
  case HS256 =>
    exact ⟨"could not parse token: invalid token signing method",
      by simp [verifyToken, jwtParse, jwtSigningMethod, Alg.isHMAC],
      fun h => Err.noConfusion h⟩
  case HS384 =>
    exact ⟨"could not parse token: invalid token signing method",
      by simp [verifyToken, jwtParse, jwtSigningMethod, Alg.isHMAC],
      fun h => Err.noConfusion h⟩
  case RS256 =>
    exact ⟨"could not parse token: unexpected signing method",
      by simp [verifyToken, jwtParse, jwtSigningMethod, Alg.isHMAC],
      fun h => Err.noConfusion h⟩
  case algNone =>
    exact ⟨"could not parse token: unexpected signing method",
      by simp [verifyToken, jwtParse, jwtSigningMethod, Alg.isHMAC],
      fun h => Err.noConfusion h⟩

/-- Witness for the amended C5 at the RS256 fixture. -/
theorem verify_wrong_alg_rejected_witness :
    ∃ m, verifyToken baseService 0 (.signed rs256Token) =
        .error (.tokenParse m) ∧
      Err.tokenParse m ≠ Err.tokenInvalid :=
  verify_wrong_alg_rejected baseService 0 rs256Token (by decide)

/-! ### C6: duplicate inserts -/

/-- C6: when the repository insert reports the duplicate-record sentinel,
Create fails with AlreadyExists (no user is returned); any other insert
failure is returned as a wrapped storage error, which is not
AlreadyExists. -/
theorem create_duplicate_already_exists (s : DefaultService)
    (clock : Nat → Int) (newID : String) (draw : Nat → Nat)
    (input : CreateUserInput) (hv : input.validate = true) :
    (s.repo.insert (insertCandidate clock newID input) =
        .error .duplicateRecord →
      (create s clock newID draw input).1 = .error .alreadyExists) ∧
    (∀ m, s.repo.insert (insertCandidate clock newID input) =
        .error (.other m) →
      (create s clock newID draw input).1 =
        .error (.storage ("could not insert user: " ++ m)) ∧
      Err.storage ("could not insert user: " ++ m) ≠ Err.alreadyExists) := by
  constructor
  · intro hdup
    simp [create, hv, hdup]
  · intro m hother
    exact ⟨by simp [create, hv, hother], fun h => Err.noConfusion h⟩

/-- Witness for C6: creating the fixture user twice collides on email. -/
theorem create_duplicate_already_exists_witness :
    (create baseService wClock "wid2" wDraw janeInput).1 =
      .error .alreadyExists :=
  (create_duplicate_already_exists baseService wClock "wid2" wDraw janeInput
    (by decide)).1 (by decide)

/-! ### C7: the persisted verification record -/

/-- `randString` always produces exactly the requested number of
characters. -/
theorem randString_length (n : Nat) (draw : Nat → Nat) :
    (randString n draw).length = n := by
  show ((List.range n).map
    (fun i => chars.toList.getD (draw i % 36) 'a')).length = n
  rw [List.length_map, List.length_range]

/-- Every entry of the `chars` table is a lowercase letter or a digit. -/
theorem chars_getD_lowerAlnum (i : Fin 36) :
    ('a' ≤ chars.toList.getD i.val 'a' ∧ chars.toList.getD i.val 'a' ≤ 'z') ∨
    ('0' ≤ chars.toList.getD i.val 'a' ∧ chars.toList.getD i.val 'a' ≤ '9') := by
  revert i
  decide

/-- Every character of a `randString` is a lowercase letter or a digit. -/
theorem randString_chars (n : Nat) (draw : Nat → Nat) :
    ∀ c ∈ (randString n draw).toList,
      ('a' ≤ c ∧ c ≤ 'z') ∨ ('0' ≤ c ∧ c ≤ '9') := by
  intro c hc
  change c ∈ (List.range n).map _ at hc
  rw [List.mem_map] at hc
  obtain ⟨i, _, rfl⟩ := hc
  exact chars_getD_lowerAlnum ⟨draw i % 36, Nat.mod_lt _ (by norm_num)⟩

/-- The first collaborator call `SendEmailVerification` makes, whatever the
collaborators then answer, is the insert of the verification record. -/
theorem sendEmailVerification_first_effect (s : DefaultService)
    (clock : Nat → Int) (draw : Nat → Nat) (userID username toAddr : String) :
    (sendEmailVerification s clock draw userID username toAddr).2.head? =
      some (.insertEmailVerification (verificationRecord clock draw userID)) := by
  simp only [sendEmailVerification]
  cases h : s.repo.insertEmailVerification (verificationRecord clock draw userID) with
  | error m => simp [h]
  | ok u =>
    cases hem : s.emailer with
    | none => simp [h, hem]
    | some em =>
      cases hsend : em s.emailVerificationSenderName toAddr
          (verificationBody s.emailVerificationSenderAddr toAddr
            s.emailVerificationSenderName
            (pathJoin s.emailVerificationEndpoint
              (verificationRecord clock draw userID).code)) with
      | error m => simp [h, hem, hsend]
      | ok v => simp [h, hem, hsend]

/-- C7 counterexample: the claim says the persisted record's expiresAt is
exactly 24 hours after its createdAt; the source reads `time.Now()` twice
(once per field), so under a clock that advances one nanosecond between the
two readings the difference is 24 hours plus one nanosecond. -/
theorem sendEmailVerification_exact_window_counterexample :
    (sendEmailVerification mailService driftClock wDraw "u-7" "janedoe"
        "jane@example.com").2.head? =
      some (.insertEmailVerification (verificationRecord driftClock wDraw "u-7")) ∧
    (verificationRecord driftClock wDraw "u-7").expiresAt ≠
      (verificationRecord driftClock wDraw "u-7").createdAt +
        86400 * nsPerSecond := by
  exact ⟨by decide, by decide⟩

/-- C7 (amended): every call of SendEmailVerification first persists an
EmailVerification record whose code is exactly 6 characters drawn from
lowercase letters and digits and whose userID is the given userID; its
expiresAt is exactly 24 hours after the second clock reading, which — the
clock being monotone — is at least 24 hours after its createdAt (and exactly
24 hours when the clock does not advance between the two readings). -/
theorem sendEmailVerification_record_shape (s : DefaultService)
    (clock : Nat → Int) (draw : Nat → Nat) (userID username toAddr : String)
    (hmono : clock 0 ≤ clock 1) :
    ∃ r, (sendEmailVerification s clock draw userID username toAddr).2.head? =
        some (.insertEmailVerification r) ∧
      r.code.length = 6 ∧
      (∀ c ∈ r.code.toList, ('a' ≤ c ∧ c ≤ 'z') ∨ ('0' ≤ c ∧ c ≤ '9')) ∧
      r.userID = userID ∧
      r.expiresAt = clock 1 + 86400 * nsPerSecond ∧
      r.createdAt + 86400 * nsPerSecond ≤ r.expiresAt := by
  refine ⟨verificationRecord clock draw userID,
    sendEmailVerification_first_effect s clock draw userID username toAddr,
    randString_length 6 draw, randString_chars 6 draw, rfl, rfl, ?_⟩
  simp only [verificationRecord]
  omega

/-- Witness for the amended C7 under a frozen clock. -/
theorem sendEmailVerification_record_shape_witness :
    ∃ r, (sendEmailVerification mailService wClock wDraw "u-8" "janedoe"
        "jane@example.com").2.head? = some (.insertEmailVerification r) ∧
      r.code.length = 6 ∧
      (∀ c ∈ r.code.toList, ('a' ≤ c ∧ c ≤ 'z') ∨ ('0' ≤ c ∧ c ≤ '9')) ∧
      r.userID = "u-8" ∧
      r.expiresAt = wClock 1 + 86400 * nsPerSecond ∧
      r.createdAt + 86400 * nsPerSecond ≤ r.expiresAt :=
  sendEmailVerification_record_shape mailService wClock wDraw "u-8" "janedoe"
    "jane@example.com" (by decide)

/-! ### C8: creation survives mail failure -/

/-- C8: once the repository insert has succeeded (returning a record whose
role is in the enum), Create returns the created user with no error whatever
the emailer and mailer do — their outcome does not appear in the result —
and when no email collaborator is configured the send step is not attempted
at all: the only collaborator call is the user insert. -/
theorem create_mail_failure_does_not_fail_create (s : DefaultService)
    (clock : Nat → Int) (newID : String) (draw : Nat → Nat)
    (input : CreateUserInput) (inserted : RepoUser)
    (hv : input.validate = true)
    (hins : s.repo.insert (insertCandidate clock newID input) = .ok inserted)
    (hrole : inserted.role = "user" ∨ inserted.role = "admin") :
    (∃ usr, newUserFromRepository inserted = .ok usr ∧
      (create s clock newID draw input).1 = .ok usr) ∧
    (s.emailer = Option.none →
      (create s clock newID draw input).2 =
        [.insertUser (insertCandidate clock newID input)]) := by
  obtain ⟨usr, hparse⟩ : ∃ usr, newUserFromRepository inserted = .ok usr := by
    simp only [newUserFromRepository]
    rw [if_pos hrole]
    exact ⟨_, rfl⟩
  constructor
  · refine ⟨usr, hparse, ?_⟩
    cases hem : s.emailer <;> simp [create, hv, hins, hparse, hem]
  · intro hem
    simp [create, hv, hins, hparse, hem]

/-- Witness for C8: creation succeeds although the mailer rejects. -/
theorem create_mail_failure_witness :
    (∃ usr, newUserFromRepository (insertCandidate wClock "wid3" janeInput) =
        .ok usr ∧
      (create failMailService wClock "wid3" wDraw janeInput).1 = .ok usr) ∧
    (failMailService.emailer = Option.none →
      (create failMailService wClock "wid3" wDraw janeInput).2 =
        [.insertUser (insertCandidate wClock "wid3" janeInput)]) :=
  create_mail_failure_does_not_fail_create failMailService wClock "wid3" wDraw
    janeInput (insertCandidate wClock "wid3" janeInput) (by decide) (by decide)
    (Or.inl rfl)

/-! ### C9: re-fetch on verification, role from the claim -/

/-- C9: for a token that parses, passes the signature and expiry checks and
names a userID: when the repository lookup by that id returns no record,
VerifyToken fails with NotFound; when it returns a record, the response's id
and username come from the freshly fetched record while the role is the
token's claim. -/
theorem verifyToken_refetch_and_claim_role (s : DefaultService) (now : Int)
    (t : Token) (userID r : String) (iat : Option Int) (exp : Int)
    (u : RepoUser)
    (halg : t.alg = Alg.HS512) (hkey : t.key = s.jwtSigningKey)
    (hclaims : t.claims =
      { userID := some userID, role := some r, iat := iat, exp := some exp })
    (hfresh : ¬ timeUnixNS exp < now) :
    (s.repo.selectByID userID = .ok Option.none →
      verifyToken s now (.signed t) = .error .notFound) ∧
    (s.repo.selectByID userID = .ok (some u) →
      verifyToken s now (.signed t) =
        .ok { id := u.id, username := u.username, role := r }) := by
  constructor <;> intro h <;>
    simp [verifyToken, jwtParse, jwtSigningMethod, Alg.isHMAC, halg, hkey,
      hclaims, hfresh, h]

/-- Witness for C9: the stored user has role "user" but the token claims
"admin"; the response carries the claimed role alongside the stored
username. -/
theorem verifyToken_refetch_and_claim_role_witness :
    verifyToken baseService 0 (.signed adminClaimToken) =
      .ok { id := juser.id, username := "janedoe", role := "admin" } :=
  (verifyToken_refetch_and_claim_role baseService 0 adminClaimToken juser.id
    "admin" (some 0) 86400 juser rfl rfl rfl (by decide)).2 (by decide)

/-! ### C10: the send step is not atomic and validates nothing -/

/-- C10: for arbitrary argument strings (none of which are validated), when
the repository accepts the verification record and the mailer then rejects
the message, SendEmailVerification returns the wrapped delivery error while
the persisted record stands: the effect log is exactly the record insert
followed by the send attempt, with no compensating call; and for every
service state whatsoever the first collaborator call is the record insert,
so persistence is attempted before the mail step and without validating
userID, username or the address. -/
theorem sendEmailVerification_not_atomic (s : DefaultService)
    (clock : Nat → Int) (draw : Nat → Nat) (userID username toAddr : String)
    (em : Emailer) (m : String)
    (hem : s.emailer = some em)
    (hrepo : s.repo.insertEmailVerification
      (verificationRecord clock draw userID) = .ok ())
    (hmail : em s.emailVerificationSenderName toAddr
      (verificationBody s.emailVerificationSenderAddr toAddr
        s.emailVerificationSenderName
        (pathJoin s.emailVerificationEndpoint
          (verificationRecord clock draw userID).code)) = .error m) :
    (sendEmailVerification s clock draw userID username toAddr).1 =
      .error (.delivery ("could not send email verification: " ++ m)) ∧
    (sendEmailVerification s clock draw userID username toAddr).2 =
      [.insertEmailVerification (verificationRecord clock draw userID),
       .sendEmail s.emailVerificationSenderName toAddr
         (verificationBody s.emailVerificationSenderAddr toAddr
           s.emailVerificationSenderName
           (pathJoin s.emailVerificationEndpoint
             (verificationRecord clock draw userID).code))] ∧
    (∀ s2 : DefaultService,
      (sendEmailVerification s2 clock draw userID username toAddr).2.head? =
        some (.insertEmailVerification (verificationRecord clock draw userID))) := by
  refine ⟨?_, ?_,
    fun s2 => sendEmailVerification_first_effect s2 clock draw userID username toAddr⟩ <;>
      simp [sendEmailVerification, hrepo, hem, hmail]

/-- Witness for C10: the failing mailer leaves the record persisted. -/
theorem sendEmailVerification_not_atomic_witness :
    (sendEmailVerification failMailService wClock wDraw "u-9" "janedoe"
        "jane@example.com").1 =
      .error (.delivery ("could not send email verification: " ++
        "smtp unavailable")) ∧
    (sendEmailVerification failMailService wClock wDraw "u-9" "janedoe"
        "jane@example.com").2 =
      [.insertEmailVerification (verificationRecord wClock wDraw "u-9"),
       .sendEmail failMailService.emailVerificationSenderName
         "jane@example.com"
         (verificationBody failMailService.emailVerificationSenderAddr
           "jane@example.com" failMailService.emailVerificationSenderName
           (pathJoin failMailService.emailVerificationEndpoint
             (verificationRecord wClock wDraw "u-9").code))] ∧
    (∀ s2 : DefaultService,
      (sendEmailVerification s2 wClock wDraw "u-9" "janedoe"
          "jane@example.com").2.head? =
        some (.insertEmailVerification (verificationRecord wClock wDraw "u-9"))) :=
  sendEmailVerification_not_atomic failMailService wClock wDraw "u-9"
    "janedoe" "jane@example.com" failEmailer "smtp unavailable" rfl rfl rfl

end Stdservices
